import Mathlib

/-!
Shallow embedding of the meal-planner program (`meal_planner_app.py`),
covering the plan-state bookkeeping and the shopping-list aggregation
engine.  Quantities are modelled as rationals (the Python code uses
floats); Python sets become `Finset`; Python dicts keyed by strings
become finite key sets together with total functions that default to the
`defaultdict` initial value.  The `defaultdict` insertion order of keys
is not modelled because the only consumer of the dict sorts its items.
-/

/-- One ingredient record of a catalog meal:
`{item: string, quantity: number, unit: string}`. -/
structure Ingredient where
  item : String
  quantity : ℚ
  unit : String
deriving DecidableEq, Repr

/-- A catalog meal record.  The fields `is_salad`, `meal_prep` and
`default_portions` are optional in the JSON catalog (the code reads them
with `.get(..., default)`), hence `Option` here. -/
structure Meal where
  name : String
  type : List String
  difficulty : String
  is_salad : Option Bool
  meal_prep : Option Bool
  default_portions : Option ℚ
  ingredients : List Ingredient
  recipe : String
deriving DecidableEq, Repr

/-- `get_meal_by_name` (lines 33-38): linear scan of the catalog,
returning the first record whose `name` matches, else `None`. -/
def get_meal_by_name (name : String) (meals_db : List Meal) : Option Meal :=
  meals_db.find? (fun meal => meal.name == name)

/-- One `(day, slot)` entry of `st.session_state.plan`: the slot dict may
hold `'name'`/`'people'` (set and deleted together, modelled as `main`)
and `'salad'`.  An absent slot dict is modelled as both fields `none`
(the code never leaves an empty slot dict behind). -/
structure Selection where
  main : Option (String × ℕ)
  salad : Option String
deriving DecidableEq, Repr

/-- One iteration of the inner plan loop (lines 262-282) acts on a
`(day, meal_type, selection)` triple. -/
structure PlanEntry where
  day : String
  meal_type : String
  sel : Selection
deriving DecidableEq, Repr

/-- The main-selectbox update (lines 218-221): a non-sentinel selection
overwrites the slot dict with `{'name': ..., 'people': ...}` (dropping a
salad key until the salad widget re-adds it); the sentinel `"-"` deletes
the slot dict if present. -/
def update_main (selected_meal : String) (num_people : ℕ) : Selection :=
  if selected_meal ≠ "-" then ⟨some (selected_meal, num_people), none⟩
  else ⟨none, none⟩

/-- The salad-selectbox update (lines 230-233): a non-sentinel selection
sets the slot's `'salad'` key (creating the slot dict if needed); the
sentinel `"-"` deletes the `'salad'` key if present. -/
def update_salad (s : Selection) (selected_salad : String) : Selection :=
  if selected_salad ≠ "-" then { s with salad := some selected_salad }
  else { s with salad := none }

/-- One full rerun of the per-slot widget code (lines 203-233) for a slot
that has a salad widget: the main branch runs first, then the salad
branch, each reading its own widget's current value.  (Streamlit reruns
the whole script on every interaction, so the state after a user action
is the composite of both branches.) -/
def update_slot (selected_meal : String) (num_people : ℕ)
    (selected_salad : String) : Selection :=
  update_salad (update_main selected_meal num_people) selected_salad

/-- `scaling_factor = num_people / default_portions` with
`default_portions = meal_details.get('default_portions', 1)`
(lines 253-254). -/
def scaling_factor (meal : Meal) (num_people : ℕ) : ℚ :=
  (num_people : ℚ) / meal.default_portions.getD 1

/-- One scaled ingredient occurrence produced inside
`add_ingredients_to_list`: the item name, the scaled quantity added to
its running total, and the unit added to its unit set. -/
structure IngOcc where
  item : String
  scaled : ℚ
  unit : String
deriving DecidableEq, Repr

/-- The ingredient loop of `add_ingredients_to_list` (lines 246-260): an
unresolvable name contributes nothing (the early `return`; the call is
also guarded at line 271 for mains), otherwise each ingredient yields one
scaled occurrence. -/
def callContribs (meals_db : List Meal) (meal_name : String)
    (num_people : ℕ) : List IngOcc :=
  match get_meal_by_name meal_name meals_db with
  | none => []
  | some meal =>
      meal.ingredients.map fun ing =>
        ⟨ing.item, ing.quantity * scaling_factor meal num_people, ing.unit⟩

/-- The prep side effect of `add_ingredients_to_list` (lines 250-251):
the meal name is appended to `prep_list` when its `meal_prep` flag
(default `False`) is set. -/
def callPrep (meals_db : List Meal) (meal_name : String) : List String :=
  match get_meal_by_name meal_name meals_db with
  | none => []
  | some meal => if meal.meal_prep.getD false then [meal.name] else []

/-- The `add_ingredients_to_list` calls issued for one slot selection
(lines 266-282): the main (with its people count) first, then the salad
with `selection.get('people', 1)` — the main people count when a main
is selected in the slot, else `1`. -/
def selCalls (sel : Selection) : List (String × ℕ) :=
  (match sel.main with
   | some (name, people) => [(name, people)]
   | none => []) ++
  (match sel.salad with
   | some salad_name => [(salad_name, (sel.main.map Prod.snd).getD 1)]
   | none => [])

/-- All calls issued by the generate loop over the whole plan
(lines 262-282), in plan iteration order. -/
def planCalls (plan : List PlanEntry) : List (String × ℕ) :=
  plan.flatMap fun e => selCalls e.sel

/-- All scaled ingredient occurrences produced by a list of calls. -/
def callsContribs (meals_db : List Meal) (calls : List (String × ℕ)) :
    List IngOcc :=
  calls.flatMap fun c => callContribs meals_db c.1 c.2

/-- The `prep_list` built by a list of calls, in call order. -/
def callsPrep (meals_db : List Meal) (calls : List (String × ℕ)) :
    List String :=
  calls.flatMap fun c => callPrep meals_db c.1

/-- All scaled ingredient occurrences of the whole plan. -/
def planContribs (meals_db : List Meal) (plan : List PlanEntry) :
    List IngOcc :=
  callsContribs meals_db (planCalls plan)

/-- `prep_list` after the generate loop. -/
def prep_list (meals_db : List Meal) (plan : List PlanEntry) :
    List String :=
  callsPrep meals_db (planCalls plan)

/-- The state of `shopping_list = defaultdict(lambda: {'quantity': 0,
'units': set()})` (line 241): the set of keys ever touched, the running
quantity total per key, and the observed unit set per key.  Untouched
keys map to the defaults `0` and `∅`. -/
structure ShopState where
  keys : Finset String
  totals : String → ℚ
  units : String → Finset String

/-- Lines 257-260 for one ingredient occurrence:
`shopping_list[item]['quantity'] += scaled_quantity` and
`shopping_list[item]['units'].add(unit)`. -/
def shopStep (s : ShopState) (c : IngOcc) : ShopState :=
  { keys := insert c.item s.keys
    totals := Function.update s.totals c.item (s.totals c.item + c.scaled)
    units := Function.update s.units c.item (insert c.unit (s.units c.item)) }

/-- The empty `defaultdict` state. -/
def initShop : ShopState := ⟨∅, fun _ => 0, fun _ => ∅⟩

/-- The shopping dict after processing a list of calls. -/
def calls_shopping (meals_db : List Meal) (calls : List (String × ℕ)) :
    ShopState :=
  (callsContribs meals_db calls).foldl shopStep initShop

/-- The shopping dict after the whole generate loop. -/
def shopping_list (meals_db : List Meal) (plan : List PlanEntry) :
    ShopState :=
  calls_shopping meals_db (planCalls plan)

/-- `final_quantity = math.ceil(data['quantity'] * 100) / 100`
(line 292). -/
def final_quantity (q : ℚ) : ℚ := (⌈q * 100⌉ : ℚ) / 100

/-- `units_str = ", ".join(sorted(list(data['units'])))` (line 293). -/
def units_str (u : Finset String) : String :=
  String.intercalate ", " (u.sort (· ≤ ·))

/-- `shopping_df_data` (lines 290-294): one row
`[item, final_quantity, units_str]` per key of the shopping dict, in
sorted key order (`sorted(shopping_list.items())` sorts by the unique
string keys). -/
def shopping_df_data (meals_db : List Meal) (plan : List PlanEntry) :
    List (String × ℚ × String) :=
  ((shopping_list meals_db plan).keys.sort (· ≤ ·)).map fun item =>
    (item, final_quantity ((shopping_list meals_db plan).totals item),
      units_str ((shopping_list meals_db plan).units item))

/-- `shopping_list_text` (lines 299-301): header line, separator line,
then one `- <item>: <quantity> <unit-string>` line per row, appended in
row order.  The rendering of the float quantity by the Python f-string
is abstracted as `render`. -/
def shopping_list_text (render : ℚ → String)
    (rows : List (String × ℚ × String)) : String :=
  rows.foldl
    (fun acc r =>
      acc ++ ("- " ++ r.1 ++ ": " ++ render r.2.1 ++ " " ++ r.2.2 ++ "\n"))
    "Your Shopping List\n------------------\n"

/-- `is_plan_empty` (lines 244, 266-267, 278-279): starts `True` and is
set `False` by any selection carrying a `'name'` or a `'salad'` key —
resolvability of the name is not consulted. -/
def is_plan_empty (plan : List PlanEntry) : Bool :=
  plan.foldl
    (fun b e => b && (e.sel.main.isNone && e.sel.salad.isNone)) true

/-- `unique_prep_list = sorted(list(set(prep_list)))` (line 306). -/
def unique_prep_list (meals_db : List Meal) (plan : List PlanEntry) :
    List String :=
  (prep_list meals_db plan).toFinset.sort (· ≤ ·)

/-- The outcome of pressing "Generate" (lines 284-313): the empty-plan
warning with no artifacts, or the artifacts (shopping rows and the
deduplicated prep list; the text file and image derive from these). -/
inductive GenOutput where
  | empty_warning : GenOutput
  | artifacts : List (String × ℚ × String) → List String → GenOutput
deriving DecidableEq, Repr

/-- The generate branch (lines 284-313). -/
def generate (meals_db : List Meal) (plan : List PlanEntry) : GenOutput :=
  if is_plan_empty plan then GenOutput.empty_warning
  else GenOutput.artifacts (shopping_df_data meals_db plan)
    (unique_prep_list meals_db plan)

/-- Spec-side predicate, for comparison with the code: an entry is
resolvable when its main or its salad selection names a meal actually
present in the catalog. -/
def spec_entry_resolvable (meals_db : List Meal) (sel : Selection) : Bool :=
  (match sel.main with
   | some (name, _) => (get_meal_by_name name meals_db).isSome
   | none => false) ||
  (match sel.salad with
   | some salad_name => (get_meal_by_name salad_name meals_db).isSome
   | none => false)

/-- A plan whose single entry names a meal absent from the (empty)
catalog. -/
def ghost_plan : List PlanEntry :=
  [⟨"Sunday", "Lunch", ⟨some ("Ghost Stew", 2), none⟩⟩]

/-- The "Oat Bowl" meal of the example catalog in the spec
(`default_portions = 2`, ingredient oats 200 g, meal-preppable). -/
def oat_bowl : Meal :=
  ⟨"Oat Bowl", ["Breakfast"], "easy", none, some true, some 2,
    [⟨"oats", 200, "g"⟩], "Mix."⟩

/-- The "Garden Salad" meal of the example catalog in the spec. -/
def garden_salad : Meal :=
  ⟨"Garden Salad", ["Lunch", "Dinner"], "easy", some true, none, none,
    [⟨"lettuce", 1, "head"⟩], "Toss."⟩

/-- A meal whose ingredient list repeats an item name with two units. -/
def stir_fry : Meal :=
  ⟨"Stir Fry", ["Dinner"], "medium", none, none, some 2,
    [⟨"oil", 2, "tbsp"⟩, ⟨"carrot", 3, "count"⟩, ⟨"oil", 30, "g"⟩],
    "Fry."⟩

/-- The example catalog. -/
def example_db : List Meal := [oat_bowl, garden_salad, stir_fry]

/-- The example plan: Sunday breakfast, Oat Bowl for 3, no salad. -/
def example_plan : List PlanEntry :=
  [⟨"Sunday", "Breakfast", ⟨some ("Oat Bowl", 3), none⟩⟩]

/-! ### Closed forms for the accumulation fold -/

theorem foldl_shopStep_keys (l : List IngOcc) (s : ShopState) :
    (l.foldl shopStep s).keys = s.keys ∪ (l.map IngOcc.item).toFinset := by
  induction l generalizing s with
  | nil => simp
  | cons c l ih =>
      simp [List.foldl_cons, ih, shopStep, Finset.insert_union,
        Finset.union_insert]

theorem foldl_shopStep_totals (l : List IngOcc) (s : ShopState)
    (item : String) :
    (l.foldl shopStep s).totals item =
      s.totals item +
        ((l.filter fun c => c.item == item).map IngOcc.scaled).sum := by
  induction l generalizing s with
  | nil => simp
  | cons c l ih =>
      simp only [List.foldl_cons, ih, List.filter_cons]
      by_cases h : c.item = item
      · subst h
        simp [shopStep, Function.update_same, add_assoc]
      · have h2 : ¬item = c.item := fun e => h e.symm
        simp [shopStep, Function.update, h, h2]

theorem foldl_shopStep_units (l : List IngOcc) (s : ShopState)
    (item : String) :
    (l.foldl shopStep s).units item =
      s.units item ∪
        ((l.filter fun c => c.item == item).map IngOcc.unit).toFinset := by
  induction l generalizing s with
  | nil => simp
  | cons c l ih =>
      simp only [List.foldl_cons, ih, List.filter_cons]
      by_cases h : c.item = item
      · subst h
        simp [shopStep, Function.update_same, Finset.insert_union,
          Finset.union_insert]
      · have h2 : ¬item = c.item := fun e => h e.symm
        simp [shopStep, Function.update, h, h2]

theorem shopping_list_keys (meals_db : List Meal) (plan : List PlanEntry) :
    (shopping_list meals_db plan).keys =
      ((planContribs meals_db plan).map IngOcc.item).toFinset := by
  simp [shopping_list, calls_shopping, planContribs, initShop,
    foldl_shopStep_keys]

theorem shopping_list_totals (meals_db : List Meal) (plan : List PlanEntry)
    (item : String) :
    (shopping_list meals_db plan).totals item =
      (((planContribs meals_db plan).filter fun c => c.item == item).map
        IngOcc.scaled).sum := by
  simp [shopping_list, calls_shopping, planContribs, initShop,
    foldl_shopStep_totals]

theorem shopping_list_units (meals_db : List Meal) (plan : List PlanEntry)
    (item : String) :
    (shopping_list meals_db plan).units item =
      (((planContribs meals_db plan).filter fun c => c.item == item).map
        IngOcc.unit).toFinset := by
  simp [shopping_list, calls_shopping, planContribs, initShop,
    foldl_shopStep_units]

/-! ### Plan-state independence of main and salad (C1) -/

/-- C1: for a slot whose state holds both a main and a salad selection
(so the state equals `update_slot m p sal` with both widgets set), the
rerun that sets the main widget to the sentinel `"-"` removes the main
entry and leaves the salad entry unchanged; symmetrically, the rerun that
sets the salad widget to `"-"` removes the salad entry and leaves the
main entry unchanged. -/
theorem C1_clear_slot_independence (s : Selection) (m : String) (p q : ℕ)
    (sal : String) (hm : m ≠ "-") (hs : sal ≠ "-")
    (hstate : s = update_slot m p sal) :
    (update_slot "-" q sal).main = none ∧
    (update_slot "-" q sal).salad = s.salad ∧
    (update_slot m p "-").salad = none ∧
    (update_slot m p "-").main = s.main := by
  subst hstate
  refine ⟨?_, ?_, ?_, ?_⟩ <;>
    simp [update_slot, update_main, update_salad, hm, hs]

/-- Witness for C1 at a concrete slot state. -/
theorem C1_clear_slot_independence_witness :
    (update_slot "-" 1 "Garden Salad").main = none ∧
    (update_slot "-" 1 "Garden Salad").salad =
      (update_slot "Oat Bowl" 3 "Garden Salad").salad ∧
    (update_slot "Oat Bowl" 3 "-").salad = none ∧
    (update_slot "Oat Bowl" 3 "-").main =
      (update_slot "Oat Bowl" 3 "Garden Salad").main :=
  C1_clear_slot_independence (update_slot "Oat Bowl" 3 "Garden Salad")
    "Oat Bowl" 3 1 "Garden Salad" (by decide) (by decide) rfl

/-! ### Empty-plan reporting (C2) -/

theorem foldl_band_eq_all (f : PlanEntry → Bool) (l : List PlanEntry)
    (b : Bool) :
    l.foldl (fun acc e => acc && f e) b = (b && l.all f) := by
  induction l generalizing b with
  | nil => simp
  | cons e l ih => simp [List.foldl_cons, ih, Bool.and_assoc]

theorem is_plan_empty_iff (plan : List PlanEntry) :
    is_plan_empty plan = true ↔
      ∀ e ∈ plan, e.sel.main = none ∧ e.sel.salad = none := by
  unfold is_plan_empty
  rw [foldl_band_eq_all]
  simp [List.all_eq_true, Option.isNone_iff_eq_none]

/-- C2 fails on the code: `ghost_plan` has no resolvable entry, yet the
generate branch does not report the empty-plan warning (it produces
artifacts with an empty shopping list), because `is_plan_empty` only
checks for the presence of a selection, never its resolvability. -/
theorem C2_empty_plan_counterexample :
    (∀ e ∈ ghost_plan, spec_entry_resolvable [] e.sel = false) ∧
    generate [] ghost_plan ≠ GenOutput.empty_warning := by
  constructor
  · intro e he
    simp only [ghost_plan, List.mem_singleton] at he
    subst he
    rfl
  · simp [generate, is_plan_empty, ghost_plan]

/-- C2 amended: the empty-plan warning (and the absence of artifacts) is
reported if and only if no plan entry carries a main or a salad
selection at all — resolvability of the selected names is not
consulted. -/
theorem C2_empty_plan_amended (meals_db : List Meal)
    (plan : List PlanEntry) :
    generate meals_db plan = GenOutput.empty_warning ↔
      ∀ e ∈ plan, e.sel.main = none ∧ e.sel.salad = none := by
  unfold generate
  split_ifs with h
  · exact iff_of_true rfl ((is_plan_empty_iff plan).mp h)
  · refine iff_of_false (by simp) fun hall => h ?_
    exact (is_plan_empty_iff plan).mpr hall

/-! ### Scaling (C4) -/

/-- C4: for a resolved meal record with `default_portions` `p` (1 when
absent) selected for `n` people, the scaling factor is exactly `n / p`,
each ingredient contributes `quantity * (n / p)`, and the contributions
are linear in `n`. -/
theorem C4_linear_scaling (meals_db : List Meal) (meal : Meal)
    (name : String) (n : ℕ)
    (h : get_meal_by_name name meals_db = some meal) :
    scaling_factor meal n = (n : ℚ) / meal.default_portions.getD 1 ∧
    callContribs meals_db name n =
      meal.ingredients.map (fun ing =>
        ⟨ing.item, ing.quantity * ((n : ℚ) / meal.default_portions.getD 1),
          ing.unit⟩) ∧
    callContribs meals_db name n =
      (callContribs meals_db name 1).map fun c =>
        ⟨c.item, (n : ℚ) * c.scaled, c.unit⟩ := by
  refine ⟨rfl, by simp [callContribs, h, scaling_factor], ?_⟩
  simp only [callContribs, h, List.map_map]
  refine List.map_congr_left fun ing _ => ?_
  show (⟨ing.item, ing.quantity * scaling_factor meal n, ing.unit⟩ : IngOcc) =
    ⟨ing.item, (n : ℚ) * (ing.quantity * scaling_factor meal 1), ing.unit⟩
  have hq : ing.quantity * scaling_factor meal n =
      (n : ℚ) * (ing.quantity * scaling_factor meal 1) := by
    simp only [scaling_factor]
    push_cast
    ring
  rw [hq]

/-- Witness for C4 on a concrete catalog. -/
theorem C4_linear_scaling_witness :
    scaling_factor oat_bowl 3 =
      (3 : ℚ) / oat_bowl.default_portions.getD 1 ∧
    callContribs example_db "Oat Bowl" 3 =
      oat_bowl.ingredients.map (fun ing =>
        ⟨ing.item,
          ing.quantity * ((3 : ℚ) / oat_bowl.default_portions.getD 1),
          ing.unit⟩) ∧
    callContribs example_db "Oat Bowl" 3 =
      (callContribs example_db "Oat Bowl" 1).map fun c =>
        ⟨c.item, (3 : ℚ) * c.scaled, c.unit⟩ :=
  C4_linear_scaling example_db oat_bowl "Oat Bowl" 3 rfl

/-! ### Salad people count (C9) -/

/-- C9: a slot's salad is aggregated (ingredients and prep flag) with
the slot's main people count when a main is selected, else with 1. -/
theorem C9_salad_people_count (meals_db : List Meal) (day mt mn : String)
    (p : ℕ) (s : String) :
    planContribs meals_db [⟨day, mt, ⟨some (mn, p), some s⟩⟩] =
      callContribs meals_db mn p ++ callContribs meals_db s p ∧
    prep_list meals_db [⟨day, mt, ⟨some (mn, p), some s⟩⟩] =
      callPrep meals_db mn ++ callPrep meals_db s ∧
    planContribs meals_db [⟨day, mt, ⟨none, some s⟩⟩] =
      callContribs meals_db s 1 ∧
    prep_list meals_db [⟨day, mt, ⟨none, some s⟩⟩] =
      callPrep meals_db s := by
  refine ⟨?_, ?_, ?_, ?_⟩ <;>
    simp [planContribs, prep_list, planCalls, callsContribs, callsPrep,
      selCalls]

/-! ### Unresolvable references are skipped (C8) -/

/-- C8: a call naming a meal absent from the catalog contributes no
ingredient occurrences and no prep entry, and removing it from the call
sequence changes neither the shopping dict nor the prep list built from
the remaining calls. -/
theorem C8_unresolvable_skipped (meals_db : List Meal) (name : String)
    (p : ℕ) (calls1 calls2 : List (String × ℕ))
    (h : get_meal_by_name name meals_db = none) :
    callContribs meals_db name p = [] ∧
    callPrep meals_db name = [] ∧
    calls_shopping meals_db (calls1 ++ (name, p) :: calls2) =
      calls_shopping meals_db (calls1 ++ calls2) ∧
    callsPrep meals_db (calls1 ++ (name, p) :: calls2) =
      callsPrep meals_db (calls1 ++ calls2) := by
  have h1 : callContribs meals_db name p = [] := by simp [callContribs, h]
  have h2 : callPrep meals_db name = [] := by simp [callPrep, h]
  refine ⟨h1, h2, ?_, ?_⟩
  · simp [calls_shopping, callsContribs, h1]
  · simp [callsPrep, h2]

/-- Witness for C8: a stale reference among resolvable calls. -/
theorem C8_unresolvable_skipped_witness :
    callContribs example_db "Ghost Stew" 4 = [] ∧
    callPrep example_db "Ghost Stew" = [] ∧
    calls_shopping example_db
        ([("Oat Bowl", 3)] ++ ("Ghost Stew", 4) :: []) =
      calls_shopping example_db ([("Oat Bowl", 3)] ++ []) ∧
    callsPrep example_db ([("Oat Bowl", 3)] ++ ("Ghost Stew", 4) :: []) =
      callsPrep example_db ([("Oat Bowl", 3)] ++ []) :=
  C8_unresolvable_skipped example_db "Ghost Stew" 4 [("Oat Bowl", 3)] [] rfl

/-! ### Text export (C3) -/

theorem stringJoin_nil : String.join [] = "" := by
  apply String.ext
  simp [String.join_eq]

theorem stringJoin_cons (x : String) (l : List String) :
    String.join (x :: l) = x ++ String.join l := by
  apply String.ext
  simp [String.join_eq, String.data_append]

theorem text_foldl_join (line : String × ℚ × String → String) :
    ∀ (rows : List (String × ℚ × String)) (acc : String),
      rows.foldl (fun a r => a ++ line r) acc =
        acc ++ String.join (rows.map line) := by
  intro rows
  induction rows with
  | nil => intro acc; simp [stringJoin_nil]
  | cons r rows ih =>
      intro acc
      rw [List.foldl_cons, ih, List.map_cons, stringJoin_cons,
        String.append_assoc]

theorem example_find :
    get_meal_by_name "Oat Bowl" example_db = some oat_bowl := rfl

theorem example_contribs :
    planContribs example_db example_plan =
      [⟨"oats", 200 * scaling_factor oat_bowl 3, "g"⟩] := by
  simp [planContribs, planCalls, example_plan, selCalls, callsContribs,
    callContribs, example_find]
  rfl

theorem example_keys :
    (shopping_list example_db example_plan).keys = {"oats"} := by
  rw [shopping_list_keys, example_contribs]
  simp

theorem example_totals :
    (shopping_list example_db example_plan).totals "oats" = 300 := by
  rw [shopping_list_totals, example_contribs]
  simp [scaling_factor, oat_bowl]
  norm_num

theorem example_units :
    (shopping_list example_db example_plan).units "oats" = {"g"} := by
  rw [shopping_list_units, example_contribs]
  simp

theorem example_rows :
    shopping_df_data example_db example_plan = [("oats", 300, "g")] := by
  unfold shopping_df_data
  rw [example_keys, Finset.sort_singleton]
  rw [List.map_singleton, example_totals, example_units]
  norm_num [final_quantity, units_str]
  rfl

/-- C3: the plain-text export is the header line, the separator line,
then exactly one `- <item>: <quantity> <unit-string>` line per row in
row (sorted) order; on the example catalog and plan, the row list is
exactly `oats`, quantity `300`, unit `g`. -/
theorem C3_text_format :
    (∀ (render : ℚ → String) (rows : List (String × ℚ × String)),
      shopping_list_text render rows =
        "Your Shopping List\n------------------\n" ++
          String.join (rows.map fun r =>
            "- " ++ r.1 ++ ": " ++ render r.2.1 ++ " " ++ r.2.2 ++ "\n")) ∧
    shopping_df_data example_db example_plan = [("oats", 300, "g")] := by
  refine ⟨fun render rows => ?_, example_rows⟩
  unfold shopping_list_text
  rw [text_foldl_join]

/-! ### Ceiling normalization (C5) -/

/-- C5: each reported quantity is `ceil(raw * 100) / 100` of the raw
total accumulated over the whole plan (the ceiling is applied once, to
the final sum, never per meal), hence at least the raw sum and within
`1/100` of it. -/
theorem C5_ceiling_after_accumulation (meals_db : List Meal)
    (plan : List PlanEntry) (item : String) (q : ℚ) (u : String)
    (h : (item, q, u) ∈ shopping_df_data meals_db plan) :
    q = final_quantity ((shopping_list meals_db plan).totals item) ∧
    (shopping_list meals_db plan).totals item =
      (((planContribs meals_db plan).filter fun c => c.item == item).map
        IngOcc.scaled).sum ∧
    (shopping_list meals_db plan).totals item ≤ q ∧
    q < (shopping_list meals_db plan).totals item + 1 / 100 := by
  obtain ⟨a, _, heq⟩ := List.mem_map.mp h
  obtain ⟨rfl, rfl, rfl⟩ : a = item ∧
      final_quantity ((shopping_list meals_db plan).totals a) = q ∧
      units_str ((shopping_list meals_db plan).units a) = u := by
    simpa [Prod.ext_iff] using heq
  refine ⟨rfl, shopping_list_totals meals_db plan a, ?_, ?_⟩
  · rw [final_quantity, le_div_iff₀ (by norm_num : (0:ℚ) < 100)]
    exact Int.le_ceil _
  · rw [final_quantity, div_lt_iff₀ (by norm_num : (0:ℚ) < 100)]
    have hc := Int.ceil_lt_add_one
      ((shopping_list meals_db plan).totals a * 100)
    linarith

/-- Witness for C5 at the example plan's oats row. -/
theorem C5_ceiling_witness :
    (300 : ℚ) =
      final_quantity ((shopping_list example_db example_plan).totals "oats") ∧
    (shopping_list example_db example_plan).totals "oats" =
      (((planContribs example_db example_plan).filter
        fun c => c.item == "oats").map IngOcc.scaled).sum ∧
    (shopping_list example_db example_plan).totals "oats" ≤ (300 : ℚ) ∧
    (300 : ℚ) < (shopping_list example_db example_plan).totals "oats" + 1 / 100 :=
  C5_ceiling_after_accumulation example_db example_plan "oats" 300 "g"
    (by rw [example_rows]; exact List.mem_singleton.mpr rfl)

/-! ### Sorted, insertion-order-independent output (C6) -/

/-- C6: the displayed rows are strictly sorted by item name, and the
whole output is unchanged under any reordering of the plan entries. -/
theorem C6_sorted_and_order_independent (meals_db : List Meal)
    (plan plan2 : List PlanEntry) (h : plan.Perm plan2) :
    (shopping_df_data meals_db plan).Pairwise (fun r r2 => r.1 < r2.1) ∧
    shopping_df_data meals_db plan = shopping_df_data meals_db plan2 := by
  have hperm : (planContribs meals_db plan).Perm
      (planContribs meals_db plan2) := by
    unfold planContribs callsContribs planCalls
    exact (h.flatMap_right _).flatMap_right _
  have hkeys : (shopping_list meals_db plan).keys =
      (shopping_list meals_db plan2).keys := by
    rw [shopping_list_keys, shopping_list_keys]
    exact List.toFinset_eq_of_perm _ _ (hperm.map _)
  have htot : ∀ i, (shopping_list meals_db plan).totals i =
      (shopping_list meals_db plan2).totals i := fun i => by
    rw [shopping_list_totals, shopping_list_totals]
    exact ((hperm.filter _).map _).sum_eq
  have hunits : ∀ i, (shopping_list meals_db plan).units i =
      (shopping_list meals_db plan2).units i := fun i => by
    rw [shopping_list_units, shopping_list_units]
    exact List.toFinset_eq_of_perm _ _ ((hperm.filter _).map _)
  constructor
  · unfold shopping_df_data
    exact List.Pairwise.map _ (fun a b hab => hab)
      (Finset.sort_sorted_lt (shopping_list meals_db plan).keys)
  · unfold shopping_df_data
    rw [hkeys]
    exact List.map_congr_left fun i _ => by rw [htot i, hunits i]

/-- Witness for C6: the example extended by a second entry, reordered. -/
theorem C6_sorted_witness :
    (shopping_df_data example_db
        [⟨"Sunday", "Breakfast", ⟨some ("Oat Bowl", 3), none⟩⟩,
         ⟨"Monday", "Dinner", ⟨some ("Stir Fry", 2), none⟩⟩]).Pairwise
        (fun r r2 => r.1 < r2.1) ∧
    shopping_df_data example_db
        [⟨"Sunday", "Breakfast", ⟨some ("Oat Bowl", 3), none⟩⟩,
         ⟨"Monday", "Dinner", ⟨some ("Stir Fry", 2), none⟩⟩] =
      shopping_df_data example_db
        [⟨"Monday", "Dinner", ⟨some ("Stir Fry", 2), none⟩⟩,
         ⟨"Sunday", "Breakfast", ⟨some ("Oat Bowl", 3), none⟩⟩] :=
  C6_sorted_and_order_independent example_db _ _
    (List.Perm.swap _ _ [])

/-! ### One merged row per item (C7) -/

theorem filter_beq_of_nodup {l : List String} {a : String}
    (hn : l.Nodup) (ha : a ∈ l) :
    l.filter (fun x => x == a) = [a] := by
  induction l with
  | nil => cases ha
  | cons b l ih =>
      obtain ⟨hb, hn'⟩ := List.nodup_cons.mp hn
      rcases List.mem_cons.mp ha with h | h
      · subst h
        rw [List.filter_cons_of_pos (by simp)]
        rw [List.filter_eq_nil_iff.mpr fun x hx => ?_]
        simp only [beq_iff_eq]
        exact fun e => hb (e ▸ hx)
      · rw [List.filter_cons_of_neg (by simp; rintro rfl; exact hb h)]
        exact ih hn' h

theorem shopping_rows_filter (meals_db : List Meal)
    (plan : List PlanEntry) (item : String)
    (h : item ∈ (shopping_list meals_db plan).keys) :
    (shopping_df_data meals_db plan).filter (fun r => r.1 == item) =
      [(item, final_quantity ((shopping_list meals_db plan).totals item),
        units_str ((shopping_list meals_db plan).units item))] := by
  unfold shopping_df_data
  rw [List.filter_map]
  have hmem : item ∈ (shopping_list meals_db plan).keys.sort (· ≤ ·) :=
    (Finset.mem_sort _).mpr h
  have hnd := Finset.sort_nodup (· ≤ ·) (shopping_list meals_db plan).keys
  have hfil : ((shopping_list meals_db plan).keys.sort (· ≤ ·)).filter
      (fun i => i == item) = [item] := filter_beq_of_nodup hnd hmem
  rw [show ((fun r : String × ℚ × String => r.1 == item) ∘ fun i =>
      (i, final_quantity ((shopping_list meals_db plan).totals i),
        units_str ((shopping_list meals_db plan).units i))) =
      fun i => i == item from rfl, hfil, List.map_singleton]

/-- C7: an item occurring in several selected meals yields exactly one
row, whose quantity is the normalized sum over all its occurrences and
whose unit string is the comma-joined lexically sorted set of its
distinct observed units. -/
theorem C7_item_merged_once (meals_db : List Meal)
    (plan : List PlanEntry) (item : String)
    (h : item ∈ (shopping_list meals_db plan).keys) :
    (shopping_df_data meals_db plan).filter (fun r => r.1 == item) =
      [(item,
        final_quantity
          ((((planContribs meals_db plan).filter fun c => c.item == item).map
            IngOcc.scaled).sum),
        String.intercalate ", "
          (((((planContribs meals_db plan).filter
            fun c => c.item == item).map IngOcc.unit).toFinset).sort
            (· ≤ ·)))] := by
  rw [shopping_rows_filter meals_db plan item h, shopping_list_totals,
    shopping_list_units]
  rfl

/-- Witness for C7 at the example plan's oats item. -/
theorem C7_item_merged_once_witness :
    (shopping_df_data example_db example_plan).filter
        (fun r => r.1 == "oats") =
      [("oats",
        final_quantity
          ((((planContribs example_db example_plan).filter
            fun c => c.item == "oats").map IngOcc.scaled).sum),
        String.intercalate ", "
          (((((planContribs example_db example_plan).filter
            fun c => c.item == "oats").map IngOcc.unit).toFinset).sort
            (· ≤ ·)))] :=
  C7_item_merged_once example_db example_plan "oats"
    (by rw [example_keys]; exact Finset.mem_singleton_self "oats")

/-! ### Repeated item names within one meal (C10) -/

/-- C10: if one meal's ingredient list repeats an item name, the
occurrences are merged into a single row whose quantity is the sum of
the scaled quantities of every occurrence and whose unit set is the
union of their units; no separate rows result. -/
theorem C10_in_meal_duplicates_merged (meals_db : List Meal) (meal : Meal)
    (name day mt item : String) (n : ℕ)
    (hfind : get_meal_by_name name meals_db = some meal)
    (hmem : item ∈ meal.ingredients.map Ingredient.item) :
    (shopping_df_data meals_db
        [⟨day, mt, ⟨some (name, n), none⟩⟩]).filter
        (fun r => r.1 == item) =
      [(item,
        final_quantity
          (((meal.ingredients.filter fun ing => ing.item == item).map
            (fun ing => ing.quantity * scaling_factor meal n)).sum),
        units_str
          ((meal.ingredients.filter fun ing => ing.item == item).map
            Ingredient.unit).toFinset)] := by
  have hc : planContribs meals_db [⟨day, mt, ⟨some (name, n), none⟩⟩] =
      meal.ingredients.map fun ing =>
        ⟨ing.item, ing.quantity * scaling_factor meal n, ing.unit⟩ := by
    simp [planContribs, planCalls, selCalls, callsContribs, callContribs,
      hfind]
  have hkeys : item ∈
      (shopping_list meals_db [⟨day, mt, ⟨some (name, n), none⟩⟩]).keys := by
    rw [shopping_list_keys, hc, List.mem_toFinset, List.map_map]
    exact hmem
  rw [shopping_rows_filter _ _ _ hkeys, shopping_list_totals,
    shopping_list_units, hc, List.filter_map, List.map_map, List.map_map]
  rfl

/-- Witness for C10: the Stir Fry meal lists `oil` twice (tbsp and g);
for 2 people (scaling factor 1) the occurrences merge into one row. -/
theorem C10_in_meal_duplicates_merged_witness :
    (shopping_df_data example_db
        [⟨"Monday", "Dinner", ⟨some ("Stir Fry", 2), none⟩⟩]).filter
        (fun r => r.1 == "oil") =
      [("oil",
        final_quantity
          (((stir_fry.ingredients.filter fun ing => ing.item == "oil").map
            (fun ing => ing.quantity * scaling_factor stir_fry 2)).sum),
        units_str
          ((stir_fry.ingredients.filter fun ing => ing.item == "oil").map
            Ingredient.unit).toFinset)] :=
  C10_in_meal_duplicates_merged example_db stir_fry "Stir Fry" "Monday"
    "Dinner" "oil" 2 rfl (by simp [stir_fry])
